import Mathlib

/-!
Shallow embedding of the Body Garage user-account HTTP service
(src/index.js): JSON bodies, bcrypt-style hashing, the `user` table,
the route handlers, the router, and the process startup sequence.
-/

namespace BodyGarage

/-- A flat JSON value, as appears in the fields of the service's
response objects (`success`, `error`, `message`, `userId`). -/
inductive JVal where
  | jbool : Bool → JVal
  | jnum : Int → JVal
  | jstr : String → JVal
deriving DecidableEq, Repr

/-- An HTTP response as produced by `sendResponse` for JSON bodies:
a status code and a flat JSON object (association list of fields). -/
structure Response where
  status : Nat
  body : List (String × JVal)
deriving DecidableEq, Repr

/-- Modelled from the spec: a bcrypt-class salted hash (§4.1 Credential
Hasher; the bcrypt library itself is not part of src/). The hash string
embeds the cost, the salt, and determines verification: `verify(p, h)`
is true iff `p` is the plaintext that was hashed. Distinct salts yield
distinct hash values for the same plaintext. -/
structure BcryptHash where
  cost : Nat
  salt : Nat
  plain : String
deriving DecidableEq, Repr

/-- Modelled from the spec: `hash(plaintext)` with work factor `cost`
and a fresh random `salt`. -/
def bcryptHash (plaintext : String) (cost salt : Nat) : BcryptHash :=
  ⟨cost, salt, plaintext⟩

/-- Modelled from the spec: `verify(plaintext, hashedString)` recomputes
with the embedded salt and compares. -/
def bcryptCompare (plaintext : String) (h : BcryptHash) : Bool :=
  plaintext == h.plain

/-- One row of the `user` table (id, name, password hash, optional
email, creation timestamp). -/
structure Row where
  id : Nat
  name : String
  password : BcryptHash
  email : Option String
  created_at : Nat
deriving DecidableEq, Repr

/-- The state of the `user` table together with the AUTO_INCREMENT
counter for the next generated id. -/
structure DBState where
  rows : List Row
  nextId : Nat
deriving DecidableEq, Repr

/-- The freshly created (empty) `user` table: AUTO_INCREMENT starts at 1. -/
def DBState.empty : DBState := ⟨[], 1⟩

/-- Modelled from the spec (§4.2 Persistence Gateway; the MySQL driver is
not part of src/): `SELECT id FROM user WHERE name = ?`. -/
def selectIdByName (db : DBState) (n : String) : List Nat :=
  (db.rows.filter (fun r => r.name == n)).map (fun r => r.id)

/-- Modelled from the spec: `SELECT id, password FROM user WHERE name = ?`. -/
def selectIdPasswordByName (db : DBState) (n : String) : List (Nat × BcryptHash) :=
  (db.rows.filter (fun r => r.name == n)).map (fun r => (r.id, r.password))

/-- Modelled from the spec: `INSERT INTO user (name, password, email)
VALUES (?, ?, ?)`; fails with a duplicate-key (unique-constraint) error
when a row with the same name already exists, otherwise appends a row
with the generated id and returns that id. -/
def insertUser (db : DBState) (n : String) (pw : BcryptHash)
    (email : Option String) (now : Nat) : Except Unit (DBState × Nat) :=
  if db.rows.any (fun r => r.name == n) then Except.error ()
  else Except.ok (⟨db.rows ++ [⟨db.nextId, n, pw, email, now⟩], db.nextId + 1⟩, db.nextId)

/-- Modelled from the spec: `DELETE FROM user WHERE id = ?`; returns the
new table state and the affected-row count. -/
def deleteById (db : DBState) (k : Int) : DBState × Nat :=
  (⟨db.rows.filter (fun r => !((r.id : Int) == k)), db.nextId⟩,
   (db.rows.filter (fun r => (r.id : Int) == k)).length)

/-- Modelled from the spec: `UPDATE user SET email = ? WHERE id = ?`;
returns the new table state and the affected-row count
(`updateEmailById(id, email) -> affectedRowCount (0 or 1)`, 0 when the
id does not exist). -/
def updateEmailById (db : DBState) (k : Int) (e : String) : DBState × Nat :=
  (⟨db.rows.map (fun r => if (r.id : Int) == k then { r with email := some e } else r),
    db.nextId⟩,
   (db.rows.filter (fun r => (r.id : Int) == k)).length)

/-- JavaScript truthiness of an optional string field of a parsed JSON
body: absent (`undefined`/`null`) and the empty string are falsy. -/
def strTruthy : Option String → Bool
  | none => false
  | some s => !(s == "")

/-- JavaScript truthiness of an optional numeric id field: absent and 0
are falsy. -/
def idTruthy : Option Int → Bool
  | none => false
  | some n => !(n == 0)

/-- Parsed body of `POST /register`: `{name, password, email?}`, each
field possibly absent. -/
structure RegisterBody where
  name : Option String
  password : Option String
  email : Option String
deriving DecidableEq, Repr

/-- Parsed body of `POST /login`: `{name, password}`. -/
structure LoginBody where
  name : Option String
  password : Option String
deriving DecidableEq, Repr

/-- Parsed body of `DELETE /user`: `{id}`. -/
structure DeleteBody where
  id : Option Int
deriving DecidableEq, Repr

/-- Parsed body of `PUT /user`: `{id, email}`. -/
structure PutBody where
  id : Option Int
  email : Option String
deriving DecidableEq, Repr

/-- The `{success:false, error: msg}` JSON body. -/
def errBody (msg : String) : List (String × JVal) :=
  [("success", JVal.jbool false), ("error", JVal.jstr msg)]

/-- The response each handler's catch block sends:
`500 {success:false, error:"Internal server error"}`. -/
def serverError : Response := ⟨500, errBody "Internal server error"⟩

/-- The `POST /register` handler. `body` is the outcome of
`parseBody` (`Except.error` when the body is not well-formed JSON, which
the catch block turns into `serverError`). `salt` is the fresh bcrypt
salt, `now` the insertion timestamp. To expose the pre-check/insert
race, the duplicate pre-check `SELECT` reads `preDb` while the `INSERT`
executes against `insDb`; a sequential run has `preDb = insDb`
(see `register`). Returns the response and the resulting table state. -/
def registerHandler (body : Except String RegisterBody) (salt now : Nat)
    (preDb insDb : DBState) : Response × DBState :=
  match body with
  | Except.error _ => (serverError, insDb)
  | Except.ok b =>
    if !(strTruthy b.name) || !(strTruthy b.password) then
      (⟨400, errBody "Name and password required"⟩, insDb)
    else if (b.password.getD "").length < 6 then
      (⟨400, errBody "Password must be at least 6 characters"⟩, insDb)
    else if 0 < (selectIdByName preDb (b.name.getD "")).length then
      (⟨409, errBody "Username already exists"⟩, insDb)
    else
      match insertUser insDb (b.name.getD "")
          (bcryptHash (b.password.getD "") 12 salt)
          (if strTruthy b.email then b.email else none) now with
      | Except.error _ => (serverError, insDb)
      | Except.ok (db2, newId) =>
        (⟨201, [("success", JVal.jbool true),
                ("message", JVal.jstr "Account created"),
                ("userId", JVal.jnum newId)]⟩, db2)

/-- The `POST /register` handler in a sequential (race-free) run: the
pre-check and the insert see the same table state. -/
def register (body : Except String RegisterBody) (salt now : Nat)
    (db : DBState) : Response × DBState :=
  registerHandler body salt now db db

/-- The `POST /login` handler. -/
def login (body : Except String LoginBody) (db : DBState) : Response :=
  match body with
  | Except.error _ => serverError
  | Except.ok b =>
    if !(strTruthy b.name) || !(strTruthy b.password) then
      ⟨400, errBody "Name and password required"⟩
    else
      match selectIdPasswordByName db (b.name.getD "") with
      | [] => ⟨401, errBody "Invalid credentials"⟩
      | (uid, hpw) :: _ =>
        if bcryptCompare (b.password.getD "") hpw then
          ⟨200, [("success", JVal.jbool true),
                 ("message", JVal.jstr "Login successful"),
                 ("userId", JVal.jnum uid)]⟩
        else ⟨401, errBody "Invalid credentials"⟩

/-- One entry of the `GET /users` listing:
`SELECT id, name, email, created_at FROM user`. -/
structure UserView where
  id : Nat
  name : String
  email : Option String
  created_at : Nat
deriving DecidableEq, Repr

/-- The `GET /users` handler: status and listed rows. -/
def getUsersHandler (db : DBState) : Nat × List UserView :=
  (200, db.rows.map (fun r => ⟨r.id, r.name, r.email, r.created_at⟩))

/-- The `DELETE /user` handler. Returns the response and the resulting
table state. -/
def deleteUserHandler (body : Except String DeleteBody) (db : DBState) :
    Response × DBState :=
  match body with
  | Except.error _ => (serverError, db)
  | Except.ok b =>
    if !(idTruthy b.id) then (⟨400, errBody "User ID required"⟩, db)
    else
      match deleteById db (b.id.getD 0) with
      | (db2, affected) =>
        if affected == 0 then (⟨404, errBody "User not found"⟩, db2)
        else (⟨200, [("success", JVal.jbool true),
                     ("message", JVal.jstr "User deleted")]⟩, db2)

/-- The `PUT /user` handler. Returns the response and the resulting
table state. -/
def putUserHandler (body : Except String PutBody) (db : DBState) :
    Response × DBState :=
  match body with
  | Except.error _ => (serverError, db)
  | Except.ok b =>
    if !(idTruthy b.id) || !(strTruthy b.email) then
      (⟨400, errBody "ID and new email required"⟩, db)
    else
      match updateEmailById db (b.id.getD 0) (b.email.getD "") with
      | (db2, affected) =>
        if affected == 0 then (⟨404, errBody "User not found"⟩, db2)
        else (⟨200, [("success", JVal.jbool true),
                     ("message", JVal.jstr "Email updated")]⟩, db2)

/-- The handlers registered in the `routes` object, plus the landing
page used as the final fallback. -/
inductive HandlerTag where
  | optionsAll
  | postRegister
  | postLogin
  | getUsers
  | deleteUser
  | putUser
  | landing
deriving DecidableEq, Repr

/-- Exact key lookup in the `routes` object (`routes[key]`). -/
def lookupRoute (k : String) : Option HandlerTag :=
  if k = "OPTIONS *" then some HandlerTag.optionsAll
  else if k = "POST /register" then some HandlerTag.postRegister
  else if k = "POST /login" then some HandlerTag.postLogin
  else if k = "GET /users" then some HandlerTag.getUsers
  else if k = "DELETE /user" then some HandlerTag.deleteUser
  else if k = "PUT /user" then some HandlerTag.putUser
  else if k = "GET /" then some HandlerTag.landing
  else none

/-- The server callback's handler selection:
`routes[`METHOD path`] || routes[`METHOD *`] || routes[`GET /`]`. -/
def route (method p : String) : HandlerTag :=
  match lookupRoute (method ++ " " ++ p) with
  | some h => h
  | none =>
    match lookupRoute (method ++ " *") with
    | some h => h
    | none => HandlerTag.landing

/-- The landing-page handler's response: status 200 with static HTML. -/
def landingStatus : Nat := 200

/-- The events of the process startup IIFE. -/
inductive StartEvent where
  | connChecked
  | processExit
  | schemaCreated
  | schemaFailed
  | listenStart
deriving DecidableEq, Repr

/-- The startup IIFE as a trace: `testConnection` exits the process on
failure; `initDatabase` catches its own error (logging it) so the trace
continues to `server.listen` whether or not schema creation succeeded. -/
def startupTrace (connOk schemaOk : Bool) : List StartEvent :=
  if connOk then
    [StartEvent.connChecked,
     if schemaOk then StartEvent.schemaCreated else StartEvent.schemaFailed,
     StartEvent.listenStart]
  else [StartEvent.connChecked, StartEvent.processExit]

/-- A table state holding exactly one user `alice` with password hash of
`secret1`, as left behind by a successful racing insert. -/
def dbWithAlice : DBState :=
  ⟨[⟨1, "alice", bcryptHash "secret1" 12 0, none, 0⟩], 2⟩

/-- Claim C1 is false as stated: a request to POST /register whose body
is not well-formed JSON is answered with status 500, which is not a
client-error (4xx) status. -/
theorem C1_counterexample :
    (register (Except.error "Invalid JSON") 0 0 DBState.empty).1.status = 500 ∧
    ¬ ((register (Except.error "Invalid JSON") 0 0 DBState.empty).1.status < 500) := by
  exact ⟨rfl, by decide⟩

/-- Claim C1 amended: for every request to POST /register, POST /login,
DELETE /user, or PUT /user whose body is not well-formed JSON, the
handler's catch block responds 500 with body
`{success:false, error:"Internal server error"}`, leaving the table
unchanged. -/
theorem C1_amended (db : DBState) (msg : String) (salt now : Nat) :
    register (Except.error msg) salt now db = (serverError, db) ∧
    login (Except.error msg) db = serverError ∧
    deleteUserHandler (Except.error msg) db = (serverError, db) ∧
    putUserHandler (Except.error msg) db = (serverError, db) :=
  ⟨rfl, rfl, rfl, rfl⟩

/-- Claim C2 is false as stated: in the run where connectivity succeeds
but schema creation fails, the startup trace reaches the listen step
even though the schema-creation step did not complete successfully. -/
theorem C2_counterexample :
    StartEvent.listenStart ∈ startupTrace true false ∧
    StartEvent.schemaCreated ∉ startupTrace true false := by
  decide

/-- Claim C2 amended: if the connectivity check fails the process exits
fatally and never listens; if it succeeds, the schema step is attempted
before listening, but a schema failure is caught and only logged, so the
server begins listening whether or not table creation succeeded. -/
theorem C2_startup (c s : Bool) :
    (c = false → startupTrace c s = [StartEvent.connChecked, StartEvent.processExit] ∧
        StartEvent.listenStart ∉ startupTrace c s) ∧
    (StartEvent.listenStart ∈ startupTrace c s → c = true ∧
        (StartEvent.schemaCreated ∈ startupTrace c s ∨
         StartEvent.schemaFailed ∈ startupTrace c s)) ∧
    (c = true → s = true →
        startupTrace c s =
          [StartEvent.connChecked, StartEvent.schemaCreated, StartEvent.listenStart]) ∧
    (c = true → s = false →
        startupTrace c s =
          [StartEvent.connChecked, StartEvent.schemaFailed, StartEvent.listenStart]) := by
  cases c <;> cases s <;> decide

/-- Witness for C2_startup at the concrete run where connectivity fails. -/
theorem C2_startup_witness :
    startupTrace false true = [StartEvent.connChecked, StartEvent.processExit] ∧
    StartEvent.listenStart ∉ startupTrace false true :=
  (C2_startup false true).1 rfl

/-- Claim C3 is false as stated: when the duplicate pre-check reads a
table without the name but the insert runs against a table that already
has it, the duplicate-key error lands in the catch block and the handler
responds 500, not 409. -/
theorem C3_counterexample :
    (registerHandler (Except.ok ⟨some "alice", some "secret1", none⟩) 0 0
        DBState.empty dbWithAlice).1.status = 500 ∧
    (registerHandler (Except.ok ⟨some "alice", some "secret1", none⟩) 0 0
        DBState.empty dbWithAlice).1.status ≠ 409 := by
  exact ⟨rfl, by decide⟩

/-- Claim C3 amended: in every execution of the register handler in
which the duplicate pre-check finds no existing row but the insert fails
with the store's duplicate-key error, the handler responds 500 (the
generic catch block) and the table is unchanged; only the pre-check
branch produces 409. -/
theorem C3_race_insert_conflict (preDb insDb : DBState) (n pw : String)
    (e : Option String) (salt now : Nat)
    (hn : n ≠ "") (hpw : pw ≠ "") (hlen : ¬ pw.length < 6)
    (hpre : selectIdByName preDb n = [])
    (hdup : insDb.rows.any (fun r => r.name == n) = true) :
    registerHandler (Except.ok ⟨some n, some pw, e⟩) salt now preDb insDb
      = (serverError, insDb) := by
  unfold registerHandler
  simp [strTruthy, hn, hpw, hlen, hpre, insertUser, hdup]

/-- Witness for C3_race_insert_conflict at the concrete racing pair of
table states. -/
theorem C3_race_insert_conflict_witness :
    registerHandler (Except.ok ⟨some "alice", some "secret1", none⟩) 0 0
        DBState.empty dbWithAlice = (serverError, dbWithAlice) :=
  C3_race_insert_conflict DBState.empty dbWithAlice "alice" "secret1" none 0 0
    (by decide) (by decide) (by decide) (by decide) (by decide)

/-- Claim C4 is false as stated: registering alice against the empty
store does return 201, but the success body is not
`{success:true, id:1}` (the code emits `userId`, not `id`, and adds a
`message` field). -/
theorem C4_counterexample :
    (register (Except.ok ⟨some "alice", some "secret1", none⟩) 7 5 DBState.empty).1
      ≠ ⟨201, [("success", JVal.jbool true), ("id", JVal.jnum 1)]⟩ := by
  decide

/-- Claim C4 amended: against an empty store, registering alice with
password secret1 returns 201 with body
`{success:true, message:"Account created", userId:1}`; logging in with
the wrong password returns 401 `{success:false, error:"Invalid
credentials"}`; logging in with the right password returns 200 with body
`{success:true, message:"Login successful", userId:1}`. -/
theorem C4_scenario :
    (register (Except.ok ⟨some "alice", some "secret1", none⟩) 7 5 DBState.empty).1
      = ⟨201, [("success", JVal.jbool true), ("message", JVal.jstr "Account created"),
               ("userId", JVal.jnum 1)]⟩ ∧
    login (Except.ok ⟨some "alice", some "wrong"⟩)
        (register (Except.ok ⟨some "alice", some "secret1", none⟩) 7 5 DBState.empty).2
      = ⟨401, errBody "Invalid credentials"⟩ ∧
    login (Except.ok ⟨some "alice", some "secret1"⟩)
        (register (Except.ok ⟨some "alice", some "secret1", none⟩) 7 5 DBState.empty).2
      = ⟨200, [("success", JVal.jbool true), ("message", JVal.jstr "Login successful"),
               ("userId", JVal.jnum 1)]⟩ :=
  ⟨rfl, rfl, rfl⟩

/-- Appending the wildcard suffix leaves the star as the final
character of the key string. -/
lemma append_star_reverse (m : String) :
    (m ++ " *").data.reverse = '*' :: ' ' :: m.data.reverse := by
  cases m with
  | mk d =>
    show (String.mk (d ++ [' ', '*'])).data.reverse = '*' :: ' ' :: d.reverse
    simp

/-- The only method whose wildcard key is the registered `OPTIONS *` is
OPTIONS itself. -/
lemma eq_options_of_append_star (m : String) (h : m ++ " *" = "OPTIONS *") :
    m = "OPTIONS" := by
  cases m with
  | mk d =>
    have h2 : d ++ [' ', '*'] = "OPTIONS".data ++ [' ', '*'] := congrArg String.data h
    have h4 := List.append_cancel_right h2
    rw [show "OPTIONS" = String.mk ("OPTIONS".data) from rfl, h4]

/-- A wildcard key never coincides with a key that does not end in a
star. -/
lemma append_star_ne (m k : String) (hk : k.data.reverse.head? ≠ some '*') :
    m ++ " *" ≠ k := by
  intro h
  apply hk
  rw [← h, append_star_reverse]
  rfl

/-- For any method other than OPTIONS, the wildcard lookup finds no
handler. -/
lemma lookupRoute_star (m : String) (hm : m ≠ "OPTIONS") :
    lookupRoute (m ++ " *") = none := by
  unfold lookupRoute
  rw [if_neg (fun h => hm (eq_options_of_append_star m h)),
      if_neg (append_star_ne m _ (by decide)),
      if_neg (append_star_ne m _ (by decide)),
      if_neg (append_star_ne m _ (by decide)),
      if_neg (append_star_ne m _ (by decide)),
      if_neg (append_star_ne m _ (by decide)),
      if_neg (append_star_ne m _ (by decide))]

/-- Claim C5: handler selection is exact `METHOD path` match first, then
the method wildcard `METHOD *`, then the landing page regardless of
method or path; in particular any unmatched request whose method is not
OPTIONS gets the landing handler, whose status is 200. -/
theorem C5_route (method p : String) :
    (∀ h, lookupRoute (method ++ " " ++ p) = some h → route method p = h) ∧
    (lookupRoute (method ++ " " ++ p) = none →
      ∀ h, lookupRoute (method ++ " *") = some h → route method p = h) ∧
    (lookupRoute (method ++ " " ++ p) = none →
      lookupRoute (method ++ " *") = none → route method p = HandlerTag.landing) ∧
    (method ≠ "OPTIONS" → lookupRoute (method ++ " " ++ p) = none →
      route method p = HandlerTag.landing ∧ landingStatus = 200) := by
  refine ⟨?_, ?_, ?_, ?_⟩
  · intro h hh
    unfold route
    rw [hh]
  · intro h1 h hh
    unfold route
    rw [h1, hh]
  · intro h1 h2
    unfold route
    rw [h1, h2]
  · intro hm h1
    refine ⟨?_, rfl⟩
    unfold route
    rw [h1, lookupRoute_star method hm]

/-- Witness for C5_route: a PATCH to an unknown path falls through to
the landing page. -/
theorem C5_route_witness :
    route "PATCH" "/nothing" = HandlerTag.landing ∧ landingStatus = 200 :=
  (C5_route "PATCH" "/nothing").2.2.2 (by decide) (by decide)

/-- Claim C6: with both fields present, a login for a name with no row
and a login for an existing name with a non-matching password produce
the very same response, status 401 with body
`{success:false, error:"Invalid credentials"}`. -/
theorem C6_login_indistinguishable (db1 db2 : DBState) (n1 p1 n2 p2 : String)
    (hn1 : n1 ≠ "") (hp1 : p1 ≠ "") (hn2 : n2 ≠ "") (hp2 : p2 ≠ "")
    (hu : selectIdPasswordByName db1 n1 = [])
    (r : Nat × BcryptHash) (rest : List (Nat × BcryptHash))
    (hw : selectIdPasswordByName db2 n2 = r :: rest)
    (hc : bcryptCompare p2 r.2 = false) :
    login (Except.ok ⟨some n1, some p1⟩) db1 = ⟨401, errBody "Invalid credentials"⟩ ∧
    login (Except.ok ⟨some n2, some p2⟩) db2 = ⟨401, errBody "Invalid credentials"⟩ := by
  constructor
  · unfold login
    simp [strTruthy, hn1, hp1, hu]
  · obtain ⟨uid, hpw⟩ := r
    unfold login
    simp only [strTruthy] at *
    simp [hn2, hp2, hw, hc]

/-- Witness for C6_login_indistinguishable: unknown user bob against the
empty store, wrong password for alice against her store. -/
theorem C6_login_indistinguishable_witness :
    login (Except.ok ⟨some "bob", some "pw"⟩) DBState.empty
      = ⟨401, errBody "Invalid credentials"⟩ ∧
    login (Except.ok ⟨some "alice", some "wrong"⟩) dbWithAlice
      = ⟨401, errBody "Invalid credentials"⟩ :=
  C6_login_indistinguishable DBState.empty dbWithAlice "bob" "pw" "alice" "wrong"
    (by decide) (by decide) (by decide) (by decide) rfl
    (1, bcryptHash "secret1" 12 0) [] rfl rfl

/-- Claim C10: a delete or update body whose id is 0 or absent (the
JavaScript-falsy id values a JSON number field can take) is answered 400
with the missing-id error message, never 404, because the handlers test
truthiness rather than presence. -/
theorem C10_falsy_id (db : DBState) (e : Option String) :
    deleteUserHandler (Except.ok ⟨some 0⟩) db = (⟨400, errBody "User ID required"⟩, db) ∧
    deleteUserHandler (Except.ok ⟨none⟩) db = (⟨400, errBody "User ID required"⟩, db) ∧
    putUserHandler (Except.ok ⟨some 0, e⟩) db
      = (⟨400, errBody "ID and new email required"⟩, db) ∧
    putUserHandler (Except.ok ⟨none, e⟩) db
      = (⟨400, errBody "ID and new email required"⟩, db) :=
  ⟨rfl, rfl, rfl, rfl⟩

/-- An empty duplicate pre-check result means no row carries the name. -/
lemma selectIdByName_nil (db : DBState) (n : String) (h : selectIdByName db n = []) :
    db.rows.filter (fun r => r.name == n) = [] := by
  unfold selectIdByName at h
  exact List.map_eq_nil_iff.mp h

/-- An empty duplicate pre-check result makes the insert's
unique-constraint test fail to fire. -/
lemma any_name_false (db : DBState) (n : String) (h : selectIdByName db n = []) :
    db.rows.any (fun r => r.name == n) = false := by
  have h3 := List.filter_eq_nil_iff.mp (selectIdByName_nil db n h)
  simp only [List.any_eq_false]
  intro x hx
  simpa using h3 x hx

/-- Claim C7: a well-formed register request with a falsy name or
password gets 400; with a password shorter than 6 characters gets 400;
with an already-taken name gets 409 leaving the table unchanged; and
after a successful registration a second sequential registration of the
same name gets 409 and the table holds exactly one row for that name. -/
theorem C7_register_rules (db : DBState) (b : RegisterBody)
    (n pw pw2 : String) (e e2 : Option String) (salt now salt2 now2 : Nat)
    (hn : n ≠ "") (hpw : pw ≠ "") (hlen : ¬ pw.length < 6)
    (hpw2 : pw2 ≠ "") (hlen2 : ¬ pw2.length < 6) :
    (strTruthy b.name = false ∨ strTruthy b.password = false →
      register (Except.ok b) salt now db
        = (⟨400, errBody "Name and password required"⟩, db)) ∧
    (strTruthy b.name = true → strTruthy b.password = true →
      (b.password.getD "").length < 6 →
      register (Except.ok b) salt now db
        = (⟨400, errBody "Password must be at least 6 characters"⟩, db)) ∧
    (selectIdByName db n ≠ [] →
      register (Except.ok ⟨some n, some pw, e⟩) salt now db
        = (⟨409, errBody "Username already exists"⟩, db)) ∧
    (selectIdByName db n = [] →
      (register (Except.ok ⟨some n, some pw, e⟩) salt now db).1.status = 201 ∧
      register (Except.ok ⟨some n, some pw2, e2⟩) salt2 now2
          (register (Except.ok ⟨some n, some pw, e⟩) salt now db).2
        = (⟨409, errBody "Username already exists"⟩,
           (register (Except.ok ⟨some n, some pw, e⟩) salt now db).2) ∧
      (((register (Except.ok ⟨some n, some pw, e⟩) salt now db).2).rows.filter
          (fun r => r.name == n)).length = 1) := by
  refine ⟨?_, ?_, ?_, ?_⟩
  · intro h
    unfold register registerHandler
    rcases h with h | h <;> simp [h]
  · intro h1 h2 h3
    unfold register registerHandler
    simp [h1, h2, h3]
  · intro h
    unfold register registerHandler
    simp [strTruthy, hn, hpw, hlen, List.length_pos.mpr h]
  · intro hfree
    have hfilter := selectIdByName_nil db n hfree
    have hany := any_name_false db n hfree
    have hreg : register (Except.ok ⟨some n, some pw, e⟩) salt now db
        = (⟨201, [("success", JVal.jbool true), ("message", JVal.jstr "Account created"),
                  ("userId", JVal.jnum db.nextId)]⟩,
           ⟨db.rows ++ [⟨db.nextId, n, bcryptHash pw 12 salt,
                         (if strTruthy e then e else none), now⟩], db.nextId + 1⟩) := by
      unfold register registerHandler insertUser
      simp [strTruthy, hn, hpw, hlen, hfree, hany]
    rw [hreg]
    have hfilter2 : (db.rows ++ [(⟨db.nextId, n, bcryptHash pw 12 salt,
          (if strTruthy e then e else none), now⟩ : Row)]).filter (fun r => r.name == n)
        = [⟨db.nextId, n, bcryptHash pw 12 salt, (if strTruthy e then e else none), now⟩] := by
      rw [List.filter_append, hfilter]
      simp
    refine ⟨rfl, ?_, ?_⟩
    · unfold register registerHandler
      simp [strTruthy, hn, hpw2, hlen2, selectIdByName, hfilter2]
    · rw [hfilter2]
      rfl

/-- Under distinct ids, filtering the table for one existing id keeps
exactly one row. -/
lemma filter_id_length_one (rows : List Row) (k : Int)
    (hpair : rows.Pairwise (fun a b => a.id ≠ b.id))
    (r : Row) (hr : r ∈ rows) (hid : (r.id : Int) = k) :
    (rows.filter (fun x => (x.id : Int) == k)).length = 1 := by
  induction rows with
  | nil => cases hr
  | cons a t ih =>
    rw [List.pairwise_cons] at hpair
    obtain ⟨ha, ht⟩ := hpair
    rcases List.mem_cons.mp hr with h | h
    · subst h
      have hpa : ((r.id : Int) == k) = true := by simp [hid]
      have hnil : t.filter (fun x => (x.id : Int) == k) = [] := by
        rw [List.filter_eq_nil_iff]
        intro b hb
        simp only [beq_iff_eq]
        intro hbk
        exact ha b hb (Int.natCast_inj.mp (hid.trans hbk.symm))
      simp [List.filter_cons, hpa, hnil]
    · have hak : ((a.id : Int) == k) = false := by
        simp only [beq_eq_false_iff_ne]
        intro hae
        exact ha r h (Int.natCast_inj.mp (hae.trans hid.symm))
      simp only [List.filter_cons, hak, Bool.false_eq_true, if_false]
      exact ih ht h

/-- Deleting an id that matches no row leaves the row list unchanged. -/
lemma filter_ne_self (rows : List Row) (k : Int)
    (h : rows.filter (fun r => (r.id : Int) == k) = []) :
    rows.filter (fun r => !((r.id : Int) == k)) = rows := by
  rw [List.filter_eq_self]
  intro a ha
  simpa using List.filter_eq_nil_iff.mp h a ha

/-- Claim C8: deleting an id present in the body but matching no row
yields 404 with the store unchanged; deleting an existing id yields 200,
removes exactly that row (all rows with other ids survive, and under the
unique-id invariant the table shrinks by exactly one), and a subsequent
listing excludes the deleted id. -/
theorem C8_deleteUser (db : DBState) (k : Int) (hk : k ≠ 0) :
    (db.rows.filter (fun r => (r.id : Int) == k) = [] →
      deleteUserHandler (Except.ok ⟨some k⟩) db = (⟨404, errBody "User not found"⟩, db)) ∧
    (∀ r ∈ db.rows, (r.id : Int) = k →
      (deleteUserHandler (Except.ok ⟨some k⟩) db).1
        = ⟨200, [("success", JVal.jbool true), ("message", JVal.jstr "User deleted")]⟩ ∧
      r ∉ (deleteUserHandler (Except.ok ⟨some k⟩) db).2.rows ∧
      (∀ r2 ∈ db.rows, (r2.id : Int) ≠ k →
        r2 ∈ (deleteUserHandler (Except.ok ⟨some k⟩) db).2.rows) ∧
      (∀ v ∈ (getUsersHandler (deleteUserHandler (Except.ok ⟨some k⟩) db).2).2,
        (v.id : Int) ≠ k) ∧
      (db.rows.Pairwise (fun a b => a.id ≠ b.id) →
        ((deleteUserHandler (Except.ok ⟨some k⟩) db).2.rows).length + 1
          = db.rows.length)) := by
  have hcase : deleteUserHandler (Except.ok ⟨some k⟩) db
      = (if (db.rows.filter (fun r => (r.id : Int) == k)).length = 0
         then (⟨404, errBody "User not found"⟩,
               ⟨db.rows.filter (fun r => !((r.id : Int) == k)), db.nextId⟩)
         else (⟨200, [("success", JVal.jbool true), ("message", JVal.jstr "User deleted")]⟩,
               ⟨db.rows.filter (fun r => !((r.id : Int) == k)), db.nextId⟩)) := by
    unfold deleteUserHandler deleteById
    simp [idTruthy, hk]
  constructor
  · intro hnone
    rw [hcase, if_pos (by rw [hnone]; rfl), filter_ne_self db.rows k hnone]
  · intro r hr hid
    have hpos : (db.rows.filter (fun r => (r.id : Int) == k)).length ≠ 0 := by
      have : r ∈ db.rows.filter (fun r => (r.id : Int) == k) :=
        List.mem_filter.mpr ⟨hr, by simp [hid]⟩
      intro h0
      rw [List.length_eq_zero] at h0
      rw [h0] at this
      cases this
    rw [hcase, if_neg hpos]
    refine ⟨rfl, ?_, ?_, ?_, ?_⟩
    · intro hmem
      have := (List.mem_filter.mp hmem).2
      simp [hid] at this
    · intro r2 hr2 hne
      exact List.mem_filter.mpr ⟨hr2, by simpa using hne⟩
    · intro v hv
      unfold getUsersHandler at hv
      simp only at hv
      obtain ⟨r3, hr3, hveq⟩ := List.mem_map.mp hv
      have h3 := (List.mem_filter.mp hr3).2
      simp only [Bool.not_eq_true', beq_eq_false_iff_ne] at h3
      intro hvk
      apply h3
      rw [← hveq] at hvk
      exact hvk
    · intro hpair
      have hone := filter_id_length_one db.rows k hpair r hr hid
      have htot := (List.length_eq_length_filter_add (l := db.rows)
        (fun r => (r.id : Int) == k)).symm
      simp only at htot ⊢
      omega

/-- Claim C9: updating the email of an existing id yields 200 and only
the email field of the targeted row changes, its id, name, password and
created_at and every other row surviving untouched; updating a
nonexistent id yields 404 with the store unchanged. -/
theorem C9_putUser (db : DBState) (k : Int) (e : String) (hk : k ≠ 0) (he : e ≠ "") :
    (db.rows.filter (fun r => (r.id : Int) == k) = [] →
      putUserHandler (Except.ok ⟨some k, some e⟩) db
        = (⟨404, errBody "User not found"⟩, db)) ∧
    (∀ r ∈ db.rows, (r.id : Int) = k →
      (putUserHandler (Except.ok ⟨some k, some e⟩) db).1
        = ⟨200, [("success", JVal.jbool true), ("message", JVal.jstr "Email updated")]⟩ ∧
      (⟨r.id, r.name, r.password, some e, r.created_at⟩ : Row)
        ∈ (putUserHandler (Except.ok ⟨some k, some e⟩) db).2.rows ∧
      (∀ r2 ∈ db.rows, (r2.id : Int) ≠ k →
        r2 ∈ (putUserHandler (Except.ok ⟨some k, some e⟩) db).2.rows) ∧
      (putUserHandler (Except.ok ⟨some k, some e⟩) db).2.nextId = db.nextId) := by
  have hcase : putUserHandler (Except.ok ⟨some k, some e⟩) db
      = (if (db.rows.filter (fun r => (r.id : Int) == k)).length = 0
         then (⟨404, errBody "User not found"⟩,
               ⟨db.rows.map (fun r => if (r.id : Int) == k
                  then { r with email := some e } else r), db.nextId⟩)
         else (⟨200, [("success", JVal.jbool true), ("message", JVal.jstr "Email updated")]⟩,
               ⟨db.rows.map (fun r => if (r.id : Int) == k
                  then { r with email := some e } else r), db.nextId⟩)) := by
    unfold putUserHandler updateEmailById
    simp [idTruthy, strTruthy, hk, he]
  constructor
  · intro hnone
    have hmapid : db.rows.map (fun r => if (r.id : Int) == k
        then { r with email := some e } else r) = db.rows := by
      have h1 : ∀ a ∈ db.rows, (if (a.id : Int) == k
          then { a with email := some e } else a) = id a := by
        intro a ha
        have := List.filter_eq_nil_iff.mp hnone a ha
        simp only [Bool.not_eq_true] at this
        simp [this]
      rw [List.map_congr_left h1, List.map_id]
    rw [hcase, if_pos (by rw [hnone]; rfl), hmapid]
  · intro r hr hid
    have hpos : (db.rows.filter (fun r => (r.id : Int) == k)).length ≠ 0 := by
      have hmem : r ∈ db.rows.filter (fun r => (r.id : Int) == k) :=
        List.mem_filter.mpr ⟨hr, by simp [hid]⟩
      intro h0
      rw [List.length_eq_zero] at h0
      rw [h0] at hmem
      cases hmem
    rw [hcase, if_neg hpos]
    refine ⟨rfl, ?_, ?_, rfl⟩
    · have hfr : (fun r => if (r.id : Int) == k
          then { r with email := some e } else r) r
          = (⟨r.id, r.name, r.password, some e, r.created_at⟩ : Row) := by
        simp [hid]
      rw [← hfr]
      exact List.mem_map_of_mem _ hr
    · intro r2 hr2 hne
      have hfr2 : (fun r => if (r.id : Int) == k
          then { r with email := some e } else r) r2 = r2 := by
        simp [hne]
      rw [← hfr2]
      exact List.mem_map_of_mem _ hr2

/-- Witness for C7_register_rules: alice registered once against the
empty store, then registered again. -/
theorem C7_register_rules_witness :
    (register (Except.ok ⟨some "alice", some "secret1", none⟩) 0 0 DBState.empty).1.status
      = 201 ∧
    register (Except.ok ⟨some "alice", some "secret2", none⟩) 1 1
        (register (Except.ok ⟨some "alice", some "secret1", none⟩) 0 0 DBState.empty).2
      = (⟨409, errBody "Username already exists"⟩,
         (register (Except.ok ⟨some "alice", some "secret1", none⟩) 0 0 DBState.empty).2) ∧
    (((register (Except.ok ⟨some "alice", some "secret1", none⟩) 0 0
        DBState.empty).2).rows.filter (fun r => r.name == "alice")).length = 1 :=
  (C7_register_rules DBState.empty ⟨none, none, none⟩ "alice" "secret1" "secret2" none none
    0 0 1 1 (by decide) (by decide) (by decide) (by decide) (by decide)).2.2.2 rfl

/-- Witness for C8_deleteUser: deleting alice's id from her store. -/
theorem C8_deleteUser_witness :
    (deleteUserHandler (Except.ok ⟨some 1⟩) dbWithAlice).1
      = ⟨200, [("success", JVal.jbool true), ("message", JVal.jstr "User deleted")]⟩ :=
  ((C8_deleteUser dbWithAlice 1 (by decide)).2
    ⟨1, "alice", bcryptHash "secret1" 12 0, none, 0⟩ (by decide) (by decide)).1

/-- Witness for C9_putUser: giving alice an email address. -/
theorem C9_putUser_witness :
    (putUserHandler (Except.ok ⟨some 1, some "alice@example.com"⟩) dbWithAlice).1
      = ⟨200, [("success", JVal.jbool true), ("message", JVal.jstr "Email updated")]⟩ :=
  ((C9_putUser dbWithAlice 1 "alice@example.com" (by decide) (by decide)).2
    ⟨1, "alice", bcryptHash "secret1" 12 0, none, 0⟩ (by decide) (by decide)).1

end BodyGarage
